import Mathlib

/-!
Verification of the Aptotect Move smart-contract scanner.

The definitions below are a shallow embedding of the Rust sources:
`src/patterns/mod.rs` (the detectors), `src/analyzer/mod.rs` (the registry,
single-file scan and directory scan) and `src/main.rs` (output formatting).
Source text is modelled as `List Char`; `rustLines` mirrors Rust's
`str::lines` (split on newline, last empty segment dropped, a trailing
carriage return stripped per line).  Each regular expression from the source
is translated into an executable matcher over `List Char` with the regex
crate's substring-match semantics (`is_match` holds when some substring of
the line matches the pattern).
-/

/-- Splits a character list at newline characters, accumulating the current
segment in reverse.  Helper for `rustLines`. -/
def splitLinesAux : List Char → List Char → List (List Char)
  | cur, [] => [cur.reverse]
  | cur, c :: rest =>
    if c = '\n' then cur.reverse :: splitLinesAux [] rest
    else splitLinesAux (c :: cur) rest

/-- Strips one trailing carriage return, as Rust's `str::lines` does per line. -/
def stripCR (l : List Char) : List Char :=
  if l.getLast? = some '\r' then l.dropLast else l

/-- Embedding of Rust's `str::lines`: split on newline; the final segment is
dropped when empty (covers both the empty string and a trailing newline);
each line loses one trailing carriage return. -/
def rustLines (s : List Char) : List (List Char) :=
  let segs := splitLinesAux [] s
  (if segs.getLast? = some [] then segs.dropLast else segs).map stripCR

/-- Substring containment, the embedding of Rust's `str::contains` and of a
regex that is an alternation of string literals. -/
def containsSub (pat : List Char) : List Char → Bool
  | [] => pat.isPrefixOf []
  | c :: rest => pat.isPrefixOf (c :: rest) || containsSub pat rest

/-- ASCII whitespace, the relevant fragment of the regex class `\s`. -/
def isWsChar (c : Char) : Bool :=
  c == ' ' || c == '\t' || c == '\n' || c == '\r' || c == '\x0b' || c == '\x0c'

/-- Membership in the regex class `[^;\n]`. -/
def isSegChar (c : Char) : Bool :=
  !(c == ';') && !(c == '\n')

/-- After at least one `[^;\n]` character: accepts more `[^;\n]` characters
followed by a semicolon (the `[^;\n]+;` tail of the arithmetic regexes). -/
def matchBsemiAux : List Char → Bool
  | [] => false
  | c :: rest => c == ';' || (isSegChar c && matchBsemiAux rest)

/-- Does some prefix of the input match `[^;\n]+;`? -/
def matchBsemi : List Char → Bool
  | [] => false
  | c :: rest => isSegChar c && matchBsemiAux rest

/-- Having consumed at least one `[^;\n]` character, matches the rest of
`[^;\n]+ op [^;\n]+;`: either the operator occurs here, or one more
segment character is consumed (backtracking alternation). -/
def matchAfterB (op : Char) : List Char → Bool
  | [] => false
  | c :: rest => (c == op && matchBsemi rest) || (isSegChar c && matchAfterB op rest)

/-- Does some prefix of the input match `[^;\n]+ op [^;\n]+;`? -/
def matchArithTail (op : Char) : List Char → Bool
  | [] => false
  | c :: rest => isSegChar c && matchAfterB op rest

/-- Does some prefix of the input match `\s*[^;\n]+ op [^;\n]+;`?  Either the
whitespace prefix is empty, or one whitespace character is consumed. -/
def matchAfterEq (op : Char) : List Char → Bool
  | [] => false
  | c :: rest => matchArithTail op (c :: rest) || (isWsChar c && matchAfterEq op rest)

/-- Embedding of `Regex::new(r"[=]\s*[^;\n]+OP[^;\n]+;").is_match(line)` for
an operator `OP` (`\+`, `-` or `/` in the source): some substring of the
line matches, i.e. some occurrence of `=` is followed by a match of the
remainder of the pattern. -/
def arithLineMatch (op : Char) : List Char → Bool
  | [] => false
  | c :: rest => (c == '=' && matchAfterEq op rest) || arithLineMatch op rest

/-- The `.*\)` tail of the owner-check regex: any characters other than a
newline, then a closing parenthesis. -/
def matchCloseParen : List Char → Bool
  | [] => false
  | c :: rest => c == ')' || (!(c == '\n') && matchCloseParen rest)

/-- The `.*owner.*\)` tail of the owner-check regex. -/
def matchOwnerDot : List Char → Bool
  | [] => false
  | c :: rest =>
    (("owner".toList).isPrefixOf (c :: rest) && matchCloseParen ((c :: rest).drop 5))
      || (!(c == '\n') && matchOwnerDot rest)

/-- Embedding of `Regex::new(r"assert!\(.*owner.*\)").is_match(line)`. -/
def ownerCheckLineMatch : List Char → Bool
  | [] => false
  | c :: rest =>
    (("assert!(".toList).isPrefixOf (c :: rest) && matchOwnerDot ((c :: rest).drop 8))
      || ownerCheckLineMatch rest

/-- Embedding of `Regex::new(r"coin::transfer|account::withdraw").is_match`. -/
def externalCallMatch (l : List Char) : Bool :=
  containsSub ("coin::transfer".toList) l || containsSub ("account::withdraw".toList) l

/-- Embedding of `Regex::new(r"borrow_global_mut|move_to|Table::add").is_match`.
The same literal pattern is compiled both as `state_change_pattern` in
`ReentrancyPattern::check` and as `state_mod_pattern` in
`AccessControlPattern::check`. -/
def stateChangeMatch (l : List Char) : Bool :=
  containsSub ("borrow_global_mut".toList) l
    || containsSub ("move_to".toList) l
    || containsSub ("Table::add".toList) l

/-- Severity levels, from `src/analyzer/mod.rs`. -/
inductive Severity where
  | Critical
  | High
  | Medium
  | Low
  | Info
deriving DecidableEq

/-- Source location, from `src/analyzer/mod.rs`. -/
structure Location where
  file : String
  line : Nat
  column : Nat
deriving DecidableEq

/-- A finding, from `src/analyzer/mod.rs`. -/
structure Vulnerability where
  severity : Severity
  title : String
  description : String
  location : Location
  recommendation : String
deriving DecidableEq

/-- The finding pushed by `ReentrancyPattern::check` for the trigger at
zero-based line index `i`. -/
def mkReentrancyVuln (i : Nat) : Vulnerability :=
  { severity := Severity.Critical
    title := "Reentrancy Vulnerability"
    description := "Potential reentrancy vulnerability detected: External call followed by state change. This pattern could allow an attacker to re-enter the function before the state is updated, potentially leading to multiple withdrawals or unauthorized state modifications."
    location := { file := "contract.move", line := i + 1, column := 0 }
    recommendation := "Implement the checks-effects-interactions pattern: 1) Validate all conditions first, 2) Update state variables, 3) Make external calls last. Consider using a reentrancy guard or implementing the nonReentrant modifier pattern." }

/-- The forward window of `ReentrancyPattern::check`: the inner loop
`for j in i+1..min(i+5, lines.len())` succeeds when some line in that range
matches the state-change pattern (`break` after the first hit means one
finding per trigger, which the existential captures). -/
def reentrancyWindow (lines : List (List Char)) (i : Nat) : Bool :=
  (List.range' (i + 1) (min (i + 5) lines.length - (i + 1))).any fun j =>
    stateChangeMatch (lines.getD j [])

/-- Embedding of `ReentrancyPattern::check`. -/
def ReentrancyPattern_check (code : List Char) : List Vulnerability :=
  (List.range (rustLines code).length).filterMap fun i =>
    if externalCallMatch ((rustLines code).getD i []) then
      if reentrancyWindow (rustLines code) i then some (mkReentrancyVuln i) else none
    else none

/-- The finding pushed by `IntegerOverflowPattern::check` at line index `i`. -/
def mkIntegerOverflowVuln (i : Nat) : Vulnerability :=
  { severity := Severity.High
    title := "Integer Overflow Vulnerability"
    description := "Potential integer overflow detected: Arithmetic operation without overflow check. This could lead to unexpected behavior where values wrap around, potentially causing financial loss or incorrect calculations."
    location := { file := "contract.move", line := i + 1, column := 0 }
    recommendation := "Add overflow checks using assert! or use safe math operations. Consider implementing a safe math library that handles overflow/underflow cases explicitly." }

/-- Embedding of `IntegerOverflowPattern::check`. -/
def IntegerOverflowPattern_check (code : List Char) : List Vulnerability :=
  (List.range (rustLines code).length).filterMap fun i =>
    if arithLineMatch '+' ((rustLines code).getD i [])
        && !(containsSub ("assert!".toList) ((rustLines code).getD i [])) then
      some (mkIntegerOverflowVuln i)
    else none

/-- The finding pushed by `UncheckedArithmeticPattern::check` at line index `i`. -/
def mkUncheckedArithmeticVuln (i : Nat) : Vulnerability :=
  { severity := Severity.High
    title := "Unchecked Arithmetic Vulnerability"
    description := "Potential unchecked arithmetic detected: Subtraction without underflow check. This could lead to unexpected behavior where values wrap around, potentially causing financial loss or incorrect calculations."
    location := { file := "contract.move", line := i + 1, column := 0 }
    recommendation := "Add underflow checks using assert! or use safe math operations. Consider implementing a safe math library that handles overflow/underflow cases explicitly." }

/-- Embedding of `UncheckedArithmeticPattern::check`. -/
def UncheckedArithmeticPattern_check (code : List Char) : List Vulnerability :=
  (List.range (rustLines code).length).filterMap fun i =>
    if arithLineMatch '-' ((rustLines code).getD i [])
        && !(containsSub ("assert!".toList) ((rustLines code).getD i [])) then
      some (mkUncheckedArithmeticVuln i)
    else none

/-- The finding pushed by `MissingErrorHandlingPattern::check` at line index `i`. -/
def mkMissingErrorHandlingVuln (i : Nat) : Vulnerability :=
  { severity := Severity.High
    title := "Missing Error Handling Vulnerability"
    description := "Missing error handling detected: Division without zero check. This could lead to a runtime error if the divisor is zero, potentially causing the entire transaction to fail or unexpected behavior."
    location := { file := "contract.move", line := i + 1, column := 0 }
    recommendation := "Add zero checks using assert! before division. Consider implementing proper error handling with custom error types and clear error messages." }

/-- Embedding of `MissingErrorHandlingPattern::check`. -/
def MissingErrorHandlingPattern_check (code : List Char) : List Vulnerability :=
  (List.range (rustLines code).length).filterMap fun i =>
    if arithLineMatch '/' ((rustLines code).getD i [])
        && !(containsSub ("assert!".toList) ((rustLines code).getD i [])) then
      some (mkMissingErrorHandlingVuln i)
    else none

/-- The suppression set of `AccessControlPattern::check`: the line numbers of
the findings of the integer-overflow, unchecked-arithmetic,
missing-error-handling and reentrancy detectors on the same text (the code
inserts them into a `HashSet` in that order; a list with the same members
models the membership queries). -/
def acFlagged (code : List Char) : List Nat :=
  (IntegerOverflowPattern_check code).map (fun v => v.location.line)
    ++ (UncheckedArithmeticPattern_check code).map (fun v => v.location.line)
    ++ (MissingErrorHandlingPattern_check code).map (fun v => v.location.line)
    ++ (ReentrancyPattern_check code).map (fun v => v.location.line)

/-- The finding pushed by `AccessControlPattern::check` at line index `i`. -/
def mkAccessControlVuln (i : Nat) : Vulnerability :=
  { severity := Severity.High
    title := "Access Control Vulnerability"
    description := "Missing access control detected: State modification without owner check. This could allow unauthorized users to modify critical contract state, potentially leading to unauthorized access or fund theft."
    location := { file := "contract.move", line := i + 1, column := 0 }
    recommendation := "Implement proper access control: 1) Add owner checks before state modifications, 2) Use role-based access control where appropriate, 3) Consider implementing a multi-signature requirement for critical operations." }

/-- The owner-check window of `AccessControlPattern::check`:
`lines.iter().skip(max(0, i - 10)).take(20).any(owner_check)`; natural
subtraction renders the `max` with zero. -/
def acOwnerWindow (lines : List (List Char)) (i : Nat) : Bool :=
  ((lines.drop (i - 10)).take 20).any ownerCheckLineMatch

/-- Embedding of `AccessControlPattern::check`. -/
def AccessControlPattern_check (code : List Char) : List Vulnerability :=
  (List.range (rustLines code).length).filterMap fun i =>
    if stateChangeMatch ((rustLines code).getD i []) then
      if (acFlagged code).contains (i + 1) then none
      else
        if acOwnerWindow (rustLines code) i then none
        else some (mkAccessControlVuln i)
    else none

/-- The finding pushed by `IncorrectStdFunctionPattern::check` at line index `i`. -/
def mkIncorrectStdVuln (i : Nat) : Vulnerability :=
  { severity := Severity.Medium
    title := "Incorrect Standard Function Usage Vulnerability"
    description := "Incorrect use of standard library function: Borrowing from an Option after extracting its value can cause runtime aborts and unexpected failures."
    location := { file := "contract.move", line := i + 1, column := 0 }
    recommendation := "Use each stdlib function as intended and add tests for edge cases." }

/-- The loop body of `IncorrectStdFunctionPattern::check`: the `extracted`
flag is set when the line contains an extract call, and then, still on the
same iteration, a borrow call emits a finding and clears the flag. -/
def incorrectStdRun : Nat → Bool → List (List Char) → List Vulnerability
  | _, _, [] => []
  | i, extracted, l :: rest =>
    let extracted1 := if containsSub ("option::extract".toList) l then true else extracted
    if extracted1 && containsSub ("option::borrow".toList) l then
      mkIncorrectStdVuln i :: incorrectStdRun (i + 1) false rest
    else
      incorrectStdRun (i + 1) extracted1 rest

/-- Embedding of `IncorrectStdFunctionPattern::check`. -/
def IncorrectStdFunctionPattern_check (code : List Char) : List Vulnerability :=
  incorrectStdRun 0 false (rustLines code)

/-- The active registry built by `Analyzer::new`, in source order:
reentrancy, integer overflow, access control, unchecked arithmetic,
missing error handling. -/
def registry : List (List Char → List Vulnerability) :=
  [ReentrancyPattern_check, IntegerOverflowPattern_check, AccessControlPattern_check,
   UncheckedArithmeticPattern_check, MissingErrorHandlingPattern_check]

/-- The detector loop of `Analyzer::analyze_contract` on in-memory source
text: every registered detector runs and its findings extend the
accumulator. -/
def Analyzer_run_patterns (code : List Char) : List Vulnerability :=
  registry.foldl (fun acc check => acc ++ check code) []

/-- Embedding of `Analyzer::analyze_contract`: the file read may fail (the
`?` on `read_file`), otherwise the detector loop runs on the text. -/
def Analyzer_analyze_contract (source : Except String (List Char)) :
    Except String (List Vulnerability) :=
  match source with
  | Except.error e => Except.error e
  | Except.ok src => Except.ok (Analyzer_run_patterns src)

/-- One directory entry as `Analyzer::analyze_directory` observes it through
the filesystem API: whether it is a file, its extension, and the outcome of
reading it. -/
structure DirEntry where
  isFile : Bool
  extension : Option String
  read : Except String (List Char)

/-- The filter of `analyze_directory`:
`path.is_file() && path.extension().map_or(false, |ext| ext == "move")`. -/
def entrySelected (e : DirEntry) : Bool :=
  e.isFile && (match e.extension with
    | some s => s == "move"
    | none => false)

/-- Embedding of `Analyzer::analyze_directory`: direct entries are processed
in enumeration order; selected files are analyzed and extend the
accumulator; the `?` operator aborts on the first failed read. -/
def Analyzer_analyze_directory : List DirEntry → Except String (List Vulnerability)
  | [] => Except.ok []
  | e :: rest =>
    if entrySelected e then
      match Analyzer_analyze_contract e.read with
      | Except.error err => Except.error err
      | Except.ok vs =>
        match Analyzer_analyze_directory rest with
        | Except.error err => Except.error err
        | Except.ok vrest => Except.ok (vs ++ vrest)
    else Analyzer_analyze_directory rest

/-- Embedding of `format_vulnerabilities` from `src/main.rs`.  The spec
scopes text and JSON rendering out as external collaborators, so the two
renderers are parameters; the match arms keep the source order
(`"json"`, then `"text"`, then the catch-all literal). -/
def format_vulnerabilities (jsonRender textRender : List Vulnerability → String)
    (vulnerabilities : List Vulnerability) (format : String) : String :=
  if format = "json" then jsonRender vulnerabilities
  else if format = "text" then textRender vulnerabilities
  else "Unsupported output format"

/-- The sequential read of the selected files of a directory in enumeration
order, modelled from the spec's words for claim C7: each selected file is
read in turn and the first failed read aborts the whole scan with that
error and no partial result. -/
def readSources : List DirEntry → Except String (List (List Char))
  | [] => Except.ok []
  | e :: rest =>
    match e.read with
    | Except.error err => Except.error err
    | Except.ok src =>
      match readSources rest with
      | Except.error err => Except.error err
      | Except.ok srcs => Except.ok (src :: srcs)

/-- One pass of the detector registry as a derivation relation: the
operational embedding of the loop in `Analyzer::analyze_contract`, which
extends an accumulator with each detector's findings in registry order.
Claim C9 is determinism of this relation. -/
inductive RunPatternsRel :
    List (List Char → List Vulnerability) → List Char → List Vulnerability →
      List Vulnerability → Prop where
  | done : ∀ code acc, RunPatternsRel [] code acc acc
  | step : ∀ p ps code acc r, RunPatternsRel ps code (acc ++ p code) r →
      RunPatternsRel (p :: ps) code acc r

/-- A complete scan of one source text: the registry runs from an empty
accumulator. -/
def ScanRel (code : List Char) (r : List Vulnerability) : Prop :=
  RunPatternsRel registry code [] r

/-- Modelled from the claim's words (claim C6): the two-state automaton in
which a borrow call fires only when the automaton is already in the
`extracted` state when the line is reached, so a borrow call on the very
line whose extract call arms the automaton does not fire (the claim's
"first subsequent line"), and a borrow encountered while idle emits
nothing. -/
def claimStdRun : Nat → Bool → List (List Char) → List Vulnerability
  | _, _, [] => []
  | i, extracted, l :: rest =>
    if extracted && containsSub ("option::borrow".toList) l then
      mkIncorrectStdVuln i :: claimStdRun (i + 1) false rest
    else
      claimStdRun (i + 1) (extracted || containsSub ("option::extract".toList) l) rest

/-- The claim-side automaton of claim C6 run over a source text. -/
def IncorrectStdFunctionPattern_claimCheck (code : List Char) : List Vulnerability :=
  claimStdRun 0 false (rustLines code)

/-- The amended automaton for claim C6: on each line the extract call arms
the automaton before the borrow check of that same line, so a line
containing both an extract call and a borrow call emits a finding at that
very line. -/
def amendedStdRun : Nat → Bool → List (List Char) → List Vulnerability
  | _, _, [] => []
  | i, st, l :: rest =>
    if (st || containsSub ("option::extract".toList) l)
        && containsSub ("option::borrow".toList) l then
      mkIncorrectStdVuln i :: amendedStdRun (i + 1) false rest
    else
      amendedStdRun (i + 1) (st || containsSub ("option::extract".toList) l) rest

/-- The input refuting claim C2: a state-mutation trigger on line 1 and an
owner assertion on line 15 (zero-based index 14), which is at distance 14
after the trigger, beyond the claimed `[L-10, L+9]` window. -/
def exC2 : List Char :=
  ("move_to<T>(a);\n\n\n\n\n\n\n\n\n\n\n\n\n\nassert!(owner)").toList

/-- The input refuting claim C3: an unchecked subtraction on line 1 and an
unprotected state mutation on line 2, so the unchecked-arithmetic and
access-control detectors each produce one finding and their relative order
becomes observable. -/
def exC3 : List Char := ("let x = a - b;\nmove_to<T>(s);").toList

/-- Scenario A of the spec (claim C5): a single line with an unchecked
addition. -/
def exC5A : List Char := ("let total = a + b;").toList

/-- A single line containing both an addition and a subtraction, flagged by
two arithmetic detectors independently (claim C5). -/
def exC5M : List Char := ("let x = a + b - c;").toList

/-- The input refuting claim C6: one line containing both an extract call
and a borrow call. -/
def exC6 : List Char := ("option::extract(x); option::borrow(x)").toList

/-! ## Normal forms for the single-pass detectors -/

theorem filterMap_guard1 {α β : Type} (l : List α) (c : α → Bool) (u : α → β) :
    (l.filterMap fun a => if c a then some (u a) else none) = (l.filter c).map u := by
  induction l with
  | nil => rfl
  | cons a t ih =>
    cases h : c a <;> simp [List.filterMap_cons, List.filter_cons, h, ih]

theorem filterMap_guard2 {α β : Type} (l : List α) (c1 c2 : α → Bool) (u : α → β) :
    (l.filterMap fun a => if c1 a then (if c2 a then some (u a) else none) else none)
      = (l.filter fun a => c1 a && c2 a).map u := by
  induction l with
  | nil => rfl
  | cons a t ih =>
    cases h1 : c1 a <;> cases h2 : c2 a <;>
      simp [List.filterMap_cons, List.filter_cons, h1, h2, ih]

theorem filterMap_guard3 {α β : Type} (l : List α) (c1 c2 c3 : α → Bool) (u : α → β) :
    (l.filterMap fun a =>
        if c1 a then (if c2 a then none else (if c3 a then none else some (u a))) else none)
      = (l.filter fun a => c1 a && !c2 a && !c3 a).map u := by
  induction l with
  | nil => rfl
  | cons a t ih =>
    cases h1 : c1 a <;> cases h2 : c2 a <;> cases h3 : c3 a <;>
      simp [List.filterMap_cons, List.filter_cons, h1, h2, h3, ih]

@[simp] theorem mkReentrancyVuln_line (i : Nat) : (mkReentrancyVuln i).location.line = i + 1 := rfl

@[simp] theorem mkReentrancyVuln_severity (i : Nat) :
    (mkReentrancyVuln i).severity = Severity.Critical := rfl

@[simp] theorem mkReentrancyVuln_file (i : Nat) :
    (mkReentrancyVuln i).location.file = "contract.move" := rfl

@[simp] theorem mkIntegerOverflowVuln_line (i : Nat) :
    (mkIntegerOverflowVuln i).location.line = i + 1 := rfl

@[simp] theorem mkIntegerOverflowVuln_severity (i : Nat) :
    (mkIntegerOverflowVuln i).severity = Severity.High := rfl

@[simp] theorem mkIntegerOverflowVuln_file (i : Nat) :
    (mkIntegerOverflowVuln i).location.file = "contract.move" := rfl

@[simp] theorem mkUncheckedArithmeticVuln_line (i : Nat) :
    (mkUncheckedArithmeticVuln i).location.line = i + 1 := rfl

@[simp] theorem mkUncheckedArithmeticVuln_severity (i : Nat) :
    (mkUncheckedArithmeticVuln i).severity = Severity.High := rfl

@[simp] theorem mkUncheckedArithmeticVuln_file (i : Nat) :
    (mkUncheckedArithmeticVuln i).location.file = "contract.move" := rfl

@[simp] theorem mkMissingErrorHandlingVuln_line (i : Nat) :
    (mkMissingErrorHandlingVuln i).location.line = i + 1 := rfl

@[simp] theorem mkMissingErrorHandlingVuln_severity (i : Nat) :
    (mkMissingErrorHandlingVuln i).severity = Severity.High := rfl

@[simp] theorem mkMissingErrorHandlingVuln_file (i : Nat) :
    (mkMissingErrorHandlingVuln i).location.file = "contract.move" := rfl

@[simp] theorem mkAccessControlVuln_line (i : Nat) :
    (mkAccessControlVuln i).location.line = i + 1 := rfl

@[simp] theorem mkAccessControlVuln_severity (i : Nat) :
    (mkAccessControlVuln i).severity = Severity.High := rfl

@[simp] theorem mkAccessControlVuln_file (i : Nat) :
    (mkAccessControlVuln i).location.file = "contract.move" := rfl

@[simp] theorem mkIncorrectStdVuln_line (i : Nat) :
    (mkIncorrectStdVuln i).location.line = i + 1 := rfl

@[simp] theorem mkIncorrectStdVuln_severity (i : Nat) :
    (mkIncorrectStdVuln i).severity = Severity.Medium := rfl

@[simp] theorem mkIncorrectStdVuln_file (i : Nat) :
    (mkIncorrectStdVuln i).location.file = "contract.move" := rfl

/-- The reentrancy detector in filter-map normal form. -/
theorem reentrancy_check_eq (code : List Char) :
    ReentrancyPattern_check code
      = ((List.range (rustLines code).length).filter fun i =>
          externalCallMatch ((rustLines code).getD i []) && reentrancyWindow (rustLines code) i).map
          mkReentrancyVuln := by
  unfold ReentrancyPattern_check
  exact filterMap_guard2 _ _ _ _

/-- The integer-overflow detector in filter-map normal form. -/
theorem integer_overflow_check_eq (code : List Char) :
    IntegerOverflowPattern_check code
      = ((List.range (rustLines code).length).filter fun i =>
          arithLineMatch '+' ((rustLines code).getD i [])
            && !(containsSub ("assert!".toList) ((rustLines code).getD i []))).map
          mkIntegerOverflowVuln := by
  unfold IntegerOverflowPattern_check
  exact filterMap_guard1 _ _ _

/-- The unchecked-arithmetic detector in filter-map normal form. -/
theorem unchecked_arithmetic_check_eq (code : List Char) :
    UncheckedArithmeticPattern_check code
      = ((List.range (rustLines code).length).filter fun i =>
          arithLineMatch '-' ((rustLines code).getD i [])
            && !(containsSub ("assert!".toList) ((rustLines code).getD i []))).map
          mkUncheckedArithmeticVuln := by
  unfold UncheckedArithmeticPattern_check
  exact filterMap_guard1 _ _ _

/-- The missing-error-handling detector in filter-map normal form. -/
theorem missing_error_handling_check_eq (code : List Char) :
    MissingErrorHandlingPattern_check code
      = ((List.range (rustLines code).length).filter fun i =>
          arithLineMatch '/' ((rustLines code).getD i [])
            && !(containsSub ("assert!".toList) ((rustLines code).getD i []))).map
          mkMissingErrorHandlingVuln := by
  unfold MissingErrorHandlingPattern_check
  exact filterMap_guard1 _ _ _

/-- The access-control detector in filter-map normal form. -/
theorem access_control_check_eq (code : List Char) :
    AccessControlPattern_check code
      = ((List.range (rustLines code).length).filter fun i =>
          stateChangeMatch ((rustLines code).getD i [])
            && !((acFlagged code).contains (i + 1))
            && !(acOwnerWindow (rustLines code) i)).map mkAccessControlVuln := by
  unfold AccessControlPattern_check
  exact filterMap_guard3 _ _ _ _ _

/-- Membership of a line number in the output of a detector in filter-map
normal form. -/
theorem mem_line_map_iff (n : Nat) (c : Nat → Bool) (mk : Nat → Vulnerability)
    (hline : ∀ j, (mk j).location.line = j + 1) (i : Nat) :
    ((i + 1) ∈ (((List.range n).filter c).map mk).map (fun v => v.location.line))
      ↔ (i < n ∧ c i = true) := by
  rw [List.map_map]
  simp only [List.mem_map, List.mem_filter, List.mem_range, Function.comp_apply, hline]
  constructor
  · rintro ⟨a, ⟨ha, hc⟩, he⟩
    have hai : a = i := by omega
    subst hai
    exact ⟨ha, hc⟩
  · rintro ⟨h1, h2⟩
    exact ⟨i, ⟨h1, h2⟩, rfl⟩

/-- Claim C1: no line number appears both among the access-control findings
and among the findings of the four suppressing detectors (reentrancy,
integer overflow, unchecked arithmetic, missing error handling) on the same
source text. -/
theorem claim1_access_control_suppression (code : List Char) :
    ((AccessControlPattern_check code).map (fun v => v.location.line)).all
      (fun n => !((acFlagged code).contains n)) = true := by
  rw [access_control_check_eq code, List.map_map]
  simp only [List.all_eq_true, List.mem_map, List.mem_filter, List.mem_range,
    Function.comp_apply, mkAccessControlVuln_line]
  rintro x ⟨i, ⟨hi, hc⟩, rfl⟩
  simp only [Bool.and_eq_true] at hc
  exact hc.1.2

/-! ## Claim C2: the access-control owner-check window -/

/-- Characterization of `any` over a `drop`-then-`take` window by absolute
indices. -/
theorem any_take_drop (l : List (List Char)) (p : List Char → Bool) (a n : Nat) :
    ((l.drop a).take n).any p = true
      ↔ ∃ j, a ≤ j ∧ j < min (a + n) l.length ∧ p (l.getD j []) = true := by
  rw [List.any_eq_true]
  constructor
  · rintro ⟨x, hx, hpx⟩
    rw [List.mem_iff_getElem?] at hx
    obtain ⟨k, hk⟩ := hx
    have hkn : k < n := by
      by_contra hge
      rw [List.getElem?_take_eq_none (by omega)] at hk
      cases hk
    rw [List.getElem?_take_of_lt hkn, List.getElem?_drop] at hk
    have hlen : a + k < l.length := by
      by_contra hge
      rw [List.getElem?_eq_none (by omega)] at hk
      cases hk
    refine ⟨a + k, by omega, by omega, ?_⟩
    rw [List.getD_eq_getElem?_getD, hk]
    simpa using hpx
  · rintro ⟨j, haj, hj, hpj⟩
    have hjl : j < l.length := by omega
    refine ⟨l.getD j [], ?_, hpj⟩
    rw [List.mem_iff_getElem?]
    refine ⟨j - a, ?_⟩
    rw [List.getElem?_take_of_lt (by omega), List.getElem?_drop]
    have hja : a + (j - a) = j := by omega
    rw [hja, List.getD_eq_getElem?_getD, List.getElem?_eq_getElem hjl]
    rfl

/-- Claim C2 counterexample: on `exC2` the trigger at zero-based line 0
matches the state-mutation pattern, no owner assertion occurs in the claimed
window (lines 0 through 9), the trigger line is not suppressed, and yet the
access-control detector emits no finding: the owner assertion at line index
14 (at distance `L+14`, beyond `L+9`) does prevent the finding, because the
code searches 20 lines forward from `max(0, L-10)`. -/
theorem claim2_window_counterexample :
    stateChangeMatch ((rustLines exC2).getD 0 []) = true
      ∧ ((rustLines exC2).take 10).all (fun l => !(ownerCheckLineMatch l)) = true
      ∧ ownerCheckLineMatch ((rustLines exC2).getD 14 []) = true
      ∧ acFlagged exC2 = []
      ∧ AccessControlPattern_check exC2 = [] := by
  decide

/-- Claim C2, amended: for a state-mutation trigger at zero-based line `i`
that is not suppressed, the owner-assertion search covers exactly the 20
consecutive lines starting at `max(0, i - 10)` (clipped at the end of file);
only for `i ≥ 10` is this the span `[i-10, i+9]`.  The access-control
detector emits a (High) finding at one-based line `i+1` precisely when the
trigger matches, the line is not suppressed, and no owner assertion occurs
in that 20-line span. -/
theorem claim2_access_control_window_amended (code : List Char) (i : Nat) :
    (((i + 1) ∈ (AccessControlPattern_check code).map (fun v => v.location.line))
      ↔ (i < (rustLines code).length
          ∧ stateChangeMatch ((rustLines code).getD i []) = true
          ∧ (acFlagged code).contains (i + 1) = false
          ∧ ¬ (∃ j, i - 10 ≤ j ∧ j < min (i - 10 + 20) (rustLines code).length
                ∧ ownerCheckLineMatch ((rustLines code).getD j []) = true)))
      ∧ (AccessControlPattern_check code).all (fun v => v.severity == Severity.High) = true := by
  constructor
  · rw [access_control_check_eq code,
      mem_line_map_iff _ _ _ (fun j => mkAccessControlVuln_line j) i]
    have hwin := any_take_drop (rustLines code) ownerCheckLineMatch (i - 10) 20
    constructor
    · rintro ⟨hi, hc⟩
      simp only [Bool.and_eq_true, Bool.not_eq_true'] at hc
      obtain ⟨⟨h1, h2⟩, h3⟩ := hc
      refine ⟨hi, h1, h2, ?_⟩
      intro hex
      have : acOwnerWindow (rustLines code) i = true := hwin.mpr hex
      rw [this] at h3
      cases h3
    · rintro ⟨hi, h1, h2, h3⟩
      refine ⟨hi, ?_⟩
      simp only [Bool.and_eq_true, Bool.not_eq_true']
      refine ⟨⟨h1, h2⟩, ?_⟩
      cases hw : acOwnerWindow (rustLines code) i
      · rfl
      · exact absurd (hwin.mp hw) h3
  · rw [access_control_check_eq code]
    simp only [List.all_eq_true, List.mem_map, List.mem_filter, List.mem_range]
    rintro x ⟨j, hj, rfl⟩
    rfl

/-! ## Claim C3: registry order -/

/-- Claim C3 counterexample: on `exC3` the scan yields the access-control
finding (line 2) before the unchecked-arithmetic finding (line 1), so the
scan is not the concatenation in the claimed order reentrancy,
integer-overflow, unchecked-arithmetic, missing-error-handling,
access-control, which would list line 1 first. -/
theorem claim3_order_counterexample :
    ((Analyzer_run_patterns exC3).map (fun v => v.location.line) = [2, 1])
      ∧ ((ReentrancyPattern_check exC3 ++ IntegerOverflowPattern_check exC3
            ++ UncheckedArithmeticPattern_check exC3 ++ MissingErrorHandlingPattern_check exC3
            ++ AccessControlPattern_check exC3).map (fun v => v.location.line) = [1, 2])
      ∧ Analyzer_run_patterns exC3
          ≠ ReentrancyPattern_check exC3 ++ IntegerOverflowPattern_check exC3
              ++ UncheckedArithmeticPattern_check exC3 ++ MissingErrorHandlingPattern_check exC3
              ++ AccessControlPattern_check exC3 := by
  decide

/-- The registry fold of `Analyzer::analyze_contract`, written out as the
concatenation of the five active detectors in their registration order. -/
theorem run_patterns_concat (code : List Char) :
    Analyzer_run_patterns code
      = ReentrancyPattern_check code ++ IntegerOverflowPattern_check code
          ++ AccessControlPattern_check code ++ UncheckedArithmeticPattern_check code
          ++ MissingErrorHandlingPattern_check code := by
  simp [Analyzer_run_patterns, registry, List.foldl_cons, List.foldl_nil, List.append_assoc]

/-- Claim C3, amended: scanning one file concatenates the five active
detectors' outputs in the registry order of `Analyzer::new`, which is
reentrancy, integer-overflow, access-control, unchecked-arithmetic,
missing-error-handling (access-control third, not last). -/
theorem claim3_registry_order_amended (code : List Char) :
    Analyzer_run_patterns code
      = ReentrancyPattern_check code ++ IntegerOverflowPattern_check code
          ++ AccessControlPattern_check code ++ UncheckedArithmeticPattern_check code
          ++ MissingErrorHandlingPattern_check code :=
  run_patterns_concat code

/-! ## Claim C4: the reentrancy forward window -/

/-- Counting occurrences of a pinned value filtered by a side condition. -/
theorem countP_eq_pin (l : List Nat) (i : Nat) (c : Nat → Bool) :
    l.countP (fun k => (k == i) && c k) = if c i then l.count i else 0 := by
  induction l with
  | nil => cases c i <;> simp
  | cons a t ih =>
    simp only [List.countP_cons, List.count_cons, ih]
    by_cases hai : a = i
    · subst hai
      cases hc : c a <;> simp [hc]
    · have : (a == i) = false := by simp [hai]
      cases hc : c i <;> simp [this, hai, hc]

/-- Each index occurs in `range n` once or not at all. -/
theorem count_range_eq (n i : Nat) : (List.range n).count i = if i < n then 1 else 0 := by
  by_cases h : i < n
  · rw [if_pos h]
    exact List.count_eq_one_of_mem (List.nodup_range n) (List.mem_range.mpr h)
  · rw [if_neg h]
    exact List.count_eq_zero.mpr (fun hm => h (List.mem_range.mp hm))

/-- How often a given line number occurs among the findings of a detector in
filter-map normal form. -/
theorem countP_line_norm (n : Nat) (c : Nat → Bool) (mk : Nat → Vulnerability)
    (hline : ∀ j, (mk j).location.line = j + 1) (i : Nat) :
    (((List.range n).filter c).map mk).countP (fun v => v.location.line == i + 1)
      = if decide (i < n) && c i then 1 else 0 := by
  rw [List.countP_map, List.countP_filter]
  have hcong : ∀ k ∈ List.range n,
      ((((fun v => v.location.line == i + 1) ∘ mk) k && c k) = true)
        ↔ (((k == i) && c k) = true) := by
    intro k _
    simp only [Function.comp_apply, hline, Bool.and_eq_true, beq_iff_eq]
    constructor
    · rintro ⟨h1, h2⟩
      exact ⟨by omega, h2⟩
    · rintro ⟨h1, h2⟩
      exact ⟨by omega, h2⟩
  rw [List.countP_congr hcong, countP_eq_pin (List.range n) i c, count_range_eq]
  by_cases h : i < n <;> cases hc : c i <;> simp [h, hc]

/-- The inner loop bound of the reentrancy detector, rephrased as the
fixed window of lines `i+1` through `i+4` intersected with the file. -/
theorem reentrancyWindow_eq_claim (lines : List (List Char)) (i : Nat) :
    reentrancyWindow lines i
      = ((List.range' (i + 1) 4).any fun j =>
          decide (j < lines.length) && stateChangeMatch (lines.getD j [])) := by
  rw [Bool.eq_iff_iff]
  unfold reentrancyWindow
  simp only [List.any_eq_true, List.mem_range'_1, Bool.and_eq_true, decide_eq_true_eq]
  constructor
  · rintro ⟨j, ⟨hj1, hj2⟩, hp⟩
    have hmin1 : min (i + 5) lines.length ≤ i + 5 := Nat.min_le_left _ _
    have hmin2 : min (i + 5) lines.length ≤ lines.length := Nat.min_le_right _ _
    exact ⟨j, ⟨hj1, by omega⟩, by omega, hp⟩
  · rintro ⟨j, ⟨hj1, hj2⟩, hjl, hp⟩
    have hj5 : j < min (i + 5) lines.length := Nat.lt_min.mpr ⟨by omega, hjl⟩
    exact ⟨j, ⟨hj1, by omega⟩, hp⟩

/-- Claim C4: for every source text and zero-based trigger index `i`, the
reentrancy detector emits a finding at one-based line `i+1` exactly when
line `i` matches the external-value-transfer pattern and some line among
`i+1` through `i+4` (within the file) matches the state-mutation pattern;
when it does, the finding at that line is unique (the inner loop stops at
the first hit), and every reentrancy finding is Critical. -/
theorem claim4_reentrancy_window (code : List Char) (i : Nat) :
    ((ReentrancyPattern_check code).countP (fun v => v.location.line == i + 1)
        = if decide (i < (rustLines code).length)
              && (externalCallMatch ((rustLines code).getD i [])
                  && ((List.range' (i + 1) 4).any fun j =>
                        decide (j < (rustLines code).length)
                          && stateChangeMatch ((rustLines code).getD j []))) then 1 else 0)
      ∧ (ReentrancyPattern_check code).all (fun v => v.severity == Severity.Critical) = true := by
  constructor
  · rw [reentrancy_check_eq code,
      countP_line_norm _ _ _ (fun j => mkReentrancyVuln_line j) i,
      reentrancyWindow_eq_claim]
  · rw [reentrancy_check_eq code]
    simp only [List.all_eq_true, List.mem_map, List.mem_filter, List.mem_range]
    rintro x ⟨j, hj, rfl⟩
    rfl

/-! ## Claim C5: the single-line arithmetic detectors -/

/-- Membership of a line number in the output of a detector whose condition
is a trigger pattern guarded by a negative substring check. -/
theorem mem_guard_iff (n : Nat) (b1 b2 : Nat → Bool) (mk : Nat → Vulnerability)
    (hline : ∀ j, (mk j).location.line = j + 1) (i : Nat) :
    ((i + 1) ∈ (((List.range n).filter fun k => b1 k && !(b2 k)).map mk).map
        (fun v => v.location.line))
      ↔ (i < n ∧ b1 i = true ∧ b2 i = false) := by
  rw [mem_line_map_iff _ _ _ hline i]
  simp only [Bool.and_eq_true, Bool.not_eq_true', and_assoc]

/-- Every finding of a detector in filter-map normal form has the severity
of its template. -/
theorem all_severity_norm (n : Nat) (c : Nat → Bool) (mk : Nat → Vulnerability)
    (s : Severity) (hs : ∀ j, (mk j).severity = s) :
    (((List.range n).filter c).map mk).all (fun v => v.severity == s) = true := by
  simp only [List.all_eq_true, List.mem_map, List.mem_filter, List.mem_range]
  rintro x ⟨j, hj, rfl⟩
  simp [hs]

/-- Claim C5: each arithmetic detector flags one-based line `i+1` exactly
when line `i` matches its assignment-with-operator regex and lacks the
`assert!` guard substring; all three report severity High and act
independently, so `exC5M` (one line with both a `+` and a `-`) is flagged by
both the integer-overflow and the unchecked-arithmetic detectors, and
Scenario A (`exC5A`) yields exactly one High integer-overflow finding at
line 1. -/
theorem claim5_arithmetic_detectors (code : List Char) (i : Nat) :
    (((i + 1) ∈ (IntegerOverflowPattern_check code).map (fun v => v.location.line))
      ↔ (i < (rustLines code).length
          ∧ arithLineMatch '+' ((rustLines code).getD i []) = true
          ∧ containsSub ("assert!".toList) ((rustLines code).getD i []) = false))
    ∧ (((i + 1) ∈ (UncheckedArithmeticPattern_check code).map (fun v => v.location.line))
      ↔ (i < (rustLines code).length
          ∧ arithLineMatch '-' ((rustLines code).getD i []) = true
          ∧ containsSub ("assert!".toList) ((rustLines code).getD i []) = false))
    ∧ (((i + 1) ∈ (MissingErrorHandlingPattern_check code).map (fun v => v.location.line))
      ↔ (i < (rustLines code).length
          ∧ arithLineMatch '/' ((rustLines code).getD i []) = true
          ∧ containsSub ("assert!".toList) ((rustLines code).getD i []) = false))
    ∧ (IntegerOverflowPattern_check code).all (fun v => v.severity == Severity.High) = true
    ∧ (UncheckedArithmeticPattern_check code).all (fun v => v.severity == Severity.High) = true
    ∧ (MissingErrorHandlingPattern_check code).all (fun v => v.severity == Severity.High) = true
    ∧ (IntegerOverflowPattern_check exC5A).map (fun v => (v.location.line, v.severity))
        = [(1, Severity.High)]
    ∧ (IntegerOverflowPattern_check exC5M).map (fun v => v.location.line) = [1]
    ∧ (UncheckedArithmeticPattern_check exC5M).map (fun v => v.location.line) = [1] := by
  refine ⟨?_, ?_, ?_, ?_, ?_, ?_, by decide, by decide, by decide⟩
  · rw [integer_overflow_check_eq code]
    exact mem_guard_iff _ _ _ _ (fun j => mkIntegerOverflowVuln_line j) i
  · rw [unchecked_arithmetic_check_eq code]
    exact mem_guard_iff _ _ _ _ (fun j => mkUncheckedArithmeticVuln_line j) i
  · rw [missing_error_handling_check_eq code]
    exact mem_guard_iff _ _ _ _ (fun j => mkMissingErrorHandlingVuln_line j) i
  · rw [integer_overflow_check_eq code]
    exact all_severity_norm _ _ _ _ (fun j => rfl)
  · rw [unchecked_arithmetic_check_eq code]
    exact all_severity_norm _ _ _ _ (fun j => rfl)
  · rw [missing_error_handling_check_eq code]
    exact all_severity_norm _ _ _ _ (fun j => rfl)

/-! ## Claim C6: the extract-then-borrow automaton -/

/-- Claim C6 counterexample: a single line containing both an extract call
and a borrow call.  The code emits one Medium finding at that very line,
although the claim's automaton (borrow fires only on a line after the
arming extract, and a borrow while idle emits nothing) emits nothing. -/
theorem claim6_same_line_counterexample :
    (IncorrectStdFunctionPattern_check exC6).map (fun v => (v.location.line, v.severity))
        = [(1, Severity.Medium)]
      ∧ IncorrectStdFunctionPattern_claimCheck exC6 = [] := by
  decide

/-- The source loop body agrees with the amended automaton: setting the flag
on an extract call before the borrow check of the same line is the same as
arming the state with a disjunction. -/
theorem incorrectStdRun_eq_amended (ls : List (List Char)) :
    ∀ (i : Nat) (st : Bool), incorrectStdRun i st ls = amendedStdRun i st ls := by
  induction ls with
  | nil => intro i st; rfl
  | cons l rest ih =>
    intro i st
    simp only [incorrectStdRun, amendedStdRun]
    cases hx : containsSub ("option::extract".toList) l <;> cases st <;>
      simp [hx, ih]

/-- Every finding emitted by the extract/borrow loop is Medium. -/
theorem incorrectStdRun_all_medium (ls : List (List Char)) :
    ∀ (i : Nat) (st : Bool),
      (incorrectStdRun i st ls).all (fun v => v.severity == Severity.Medium) = true := by
  induction ls with
  | nil => intro i st; rfl
  | cons l rest ih =>
    intro i st
    simp only [incorrectStdRun]
    cases hx : containsSub ("option::extract".toList) l <;> cases st <;>
      cases hb : containsSub ("option::borrow".toList) l <;>
        simp [hx, hb, ih]

/-- Claim C6, amended: the detector is the two-state automaton in which, on
each line, the extract check runs before the borrow check, so a line
containing both an extract call and a borrow call emits one Medium finding
at that very line; otherwise, while in `extracted`, the first line
containing a borrow call emits one Medium finding at that line and returns
the automaton to idle, and a borrow line reached in idle with no extract
call on it emits nothing. -/
theorem claim6_automaton_amended (code : List Char) :
    (IncorrectStdFunctionPattern_check code = amendedStdRun 0 false (rustLines code))
      ∧ (IncorrectStdFunctionPattern_check code).all
          (fun v => v.severity == Severity.Medium) = true := by
  constructor
  · exact incorrectStdRun_eq_amended (rustLines code) 0 false
  · exact incorrectStdRun_all_medium (rustLines code) 0 false

/-! ## Claim C7: directory scanning -/

/-- Claim C7: a directory scan equals the scan of exactly the selected
files (entries that are files with the `move` extension) in enumeration
order: their contents are read in order with the first read failure
aborting the whole scan with that error and no partial list, and on success
the per-file finding lists are concatenated in that order.  Entries that do
not pass the filter are skipped and can neither contribute findings nor
cause an error. -/
theorem claim7_directory_scan (entries : List DirEntry) :
    Analyzer_analyze_directory entries
      = (readSources (entries.filter entrySelected)).map
          (fun srcs => (srcs.map Analyzer_run_patterns).flatten) := by
  induction entries with
  | nil => rfl
  | cons e rest ih =>
    by_cases hsel : entrySelected e = true
    · rw [List.filter_cons_of_pos hsel]
      simp only [Analyzer_analyze_directory, hsel, if_true]
      cases hr : e.read with
      | error err =>
        simp [Analyzer_analyze_contract, hr, readSources, Except.map]
      | ok src =>
        rw [ih]
        cases hrs : readSources (List.filter entrySelected rest) with
        | error err =>
          simp [Analyzer_analyze_contract, hr, readSources, hrs, Except.map]
        | ok srcs =>
          simp [Analyzer_analyze_contract, hr, readSources, hrs, Except.map]
    · rw [List.filter_cons_of_neg (by simpa using hsel)]
      simp only [Analyzer_analyze_directory]
      rw [if_neg hsel]
      exact ih

/-! ## Claim C8: the output-mode fallback -/

/-- Claim C8: for any finding list and any output mode other than `"text"`
and `"json"`, the formatter returns the fixed literal fallback string; as a
total function it cannot fail. -/
theorem claim8_format_fallback (jsonRender textRender : List Vulnerability → String)
    (vulns : List Vulnerability) (format : String)
    (h1 : format ≠ "text") (h2 : format ≠ "json") :
    format_vulnerabilities jsonRender textRender vulns format
      = "Unsupported output format" := by
  unfold format_vulnerabilities
  rw [if_neg h2, if_neg h1]

/-- Witness for claim C8 at the concrete unsupported mode `"yaml"`. -/
theorem claim8_format_fallback_witness :
    ("yaml" ≠ "text") ∧ ("yaml" ≠ "json")
      ∧ format_vulnerabilities (fun _ => "") (fun _ => "") [] "yaml"
          = "Unsupported output format" :=
  ⟨by decide, by decide, claim8_format_fallback _ _ _ _ (by decide) (by decide)⟩

/-! ## Claim C9: determinism of the scan -/

/-- The registry-run relation is deterministic. -/
theorem runPatternsRel_det {ps : List (List Char → List Vulnerability)}
    {code : List Char} {acc r1 r2 : List Vulnerability}
    (h1 : RunPatternsRel ps code acc r1) (h2 : RunPatternsRel ps code acc r2) :
    r1 = r2 := by
  induction h1 generalizing r2 with
  | done code acc => cases h2; rfl
  | step p ps code acc r h ih =>
    cases h2 with
    | step _ _ _ _ _ h2t => exact ih h2t

/-- Claim C9: two scans of the same source text through the registry-run
relation produce the same finding list; no state carried between runs can
change the outcome, since the derivation is determined by the text alone. -/
theorem claim9_scan_deterministic (code : List Char) (r1 r2 : List Vulnerability)
    (h1 : ScanRel code r1) (h2 : ScanRel code r2) : r1 = r2 :=
  runPatternsRel_det h1 h2

/-- The functional scan is a run of the registry relation. -/
theorem runPatternsRel_foldl (ps : List (List Char → List Vulnerability))
    (code : List Char) :
    ∀ acc, RunPatternsRel ps code acc (ps.foldl (fun a p => a ++ p code) acc) := by
  induction ps with
  | nil => intro acc; exact RunPatternsRel.done code acc
  | cons p ps ih =>
    intro acc
    exact RunPatternsRel.step p ps code acc _ (ih (acc ++ p code))

/-- `Analyzer_run_patterns` satisfies the scan relation. -/
theorem scanRel_run (code : List Char) : ScanRel code (Analyzer_run_patterns code) :=
  runPatternsRel_foldl registry code []

/-- Witness for claim C9: two derivations of a scan of a concrete text give
equal results. -/
theorem claim9_scan_deterministic_witness :
    ScanRel ("coin::transfer(a);".toList)
        (Analyzer_run_patterns ("coin::transfer(a);".toList))
      ∧ Analyzer_run_patterns ("coin::transfer(a);".toList)
          = Analyzer_run_patterns ("coin::transfer(a);".toList) :=
  ⟨scanRel_run _,
    claim9_scan_deterministic _ _ _ (scanRel_run _) (scanRel_run _)⟩

/-! ## Claim C10: the constant location file -/

/-- Every finding of a detector in filter-map normal form carries the
constant file name of its template. -/
theorem all_file_norm (n : Nat) (c : Nat → Bool) (mk : Nat → Vulnerability)
    (hf : ∀ j, (mk j).location.file = "contract.move") :
    (((List.range n).filter c).map mk).all
      (fun v => v.location.file == "contract.move") = true := by
  simp only [List.all_eq_true, List.mem_map, List.mem_filter, List.mem_range]
  rintro x ⟨j, hj, rfl⟩
  simp [hf]

/-- Every finding emitted by the extract/borrow loop carries the constant
file name. -/
theorem incorrectStdRun_all_file (ls : List (List Char)) :
    ∀ (i : Nat) (st : Bool),
      (incorrectStdRun i st ls).all
        (fun v => v.location.file == "contract.move") = true := by
  induction ls with
  | nil => intro i st; rfl
  | cons l rest ih =>
    intro i st
    simp only [incorrectStdRun]
    cases hx : containsSub ("option::extract".toList) l <;> cases st <;>
      cases hb : containsSub ("option::borrow".toList) l <;>
        simp [hx, hb, ih]

/-- Claim C10: every finding produced by a full scan (all five active
detectors) and by the extract/borrow detector reports the constant file
name `contract.move` in its location.  The detectors receive only the
source text, never the scanned path, so the real path cannot appear in any
finding. -/
theorem claim10_location_file_constant (code : List Char) :
    ((Analyzer_run_patterns code ++ IncorrectStdFunctionPattern_check code).all
        (fun v => v.location.file == "contract.move")) = true := by
  rw [run_patterns_concat code]
  simp only [List.all_append, Bool.and_eq_true]
  refine ⟨⟨⟨⟨⟨?_, ?_⟩, ?_⟩, ?_⟩, ?_⟩, ?_⟩
  · rw [reentrancy_check_eq code]
    exact all_file_norm _ _ _ (fun j => rfl)
  · rw [integer_overflow_check_eq code]
    exact all_file_norm _ _ _ (fun j => rfl)
  · rw [access_control_check_eq code]
    exact all_file_norm _ _ _ (fun j => rfl)
  · rw [unchecked_arithmetic_check_eq code]
    exact all_file_norm _ _ _ (fun j => rfl)
  · rw [missing_error_handling_check_eq code]
    exact all_file_norm _ _ _ (fun j => rfl)
  · exact incorrectStdRun_all_file (rustLines code) 0 false
